import Mathlib

/-!
A shallow embedding of `webserver.c`.

The per-connection protocol engine of the file server: request accumulation
(`run_thread`), request-line parsing (`parse_request`), path resolution
(`create_path`), file probing (`check_file`), transmission (`transmit`) and the
MIME table (`get_file_type`).

Modelling conventions.

* A C string is the list of the bytes before its terminating NUL (`List Char`,
  one `Char` per byte). Unbounded copies (`%s` without a width, `strcpy`,
  `strcat`) are list operations; the bounded ones (`snprintf`, `strncat`,
  `strftime`, `recv`) truncate as the code says.
* What the operating system answers (received bytes, the clock, `stat`,
  `fopen`, `fread`, failed sends, the shared connection counter as read by this
  thread) is an explicit input, one record `Env` per pass of the handler loop.
* What the handler does to the outside is a trace of `Effect`s. Diagnostics
  written with `printf` and `perror` are not part of the trace.
-/

namespace Webserver

/-! ## Constants and C library functions -/

/-- The size of every buffer of the program (`BUFSIZE`). -/
def BUFSIZE : Nat := 1024

/-- The permission bit "readable by others" of `st_mode`. -/
def S_IROTH : Nat := 4

/-- The white-space test of the C library in the "C" locale: space, `\t`, `\n`,
`\v`, `\f` and `\r`. -/
def isspace (c : Char) : Bool :=
  c == ' ' || c == '\t' || c == '\n' || c == '\x0b' || c == '\x0c' || c == '\r'

/-- The C string held in a byte buffer: the bytes before the first NUL. -/
def cstr (bytes : List Char) : List Char :=
  bytes.takeWhile (fun c => c != '\x00')

/-- The function `strstr`: the part of `haystack` that starts at the first
occurrence of `needle`, or `none` for the null pointer. -/
def strstr : List Char → List Char → Option (List Char)
  | [], needle => if needle.isPrefixOf [] then some [] else none
  | c :: cs, needle =>
    if needle.isPrefixOf (c :: cs) then some (c :: cs) else strstr cs needle

/-- The function `strrchr`: the offset of the last occurrence of `c` in `s`, or
`none` for the null pointer. -/
def strrchr : List Char → Char → Option Nat
  | [], _ => none
  | x :: xs, c =>
    match strrchr xs c with
    | some i => some (i + 1)
    | none => if x = c then some 0 else none

/-- The function `snprintf(buf, size, ...)`: of the formatted text at most
`size - 1` bytes are stored. -/
def snprintf (size : Nat) (formatted : List Char) : List Char :=
  formatted.take (size - 1)

/-- The function `strncat(dest, src, n)`: at most `n` bytes of `src` are
appended to `dest`. -/
def strncat (dest src : List Char) (n : Nat) : List Char :=
  dest ++ src.take n

/-- The function `strftime(buf, max, format, tm)`, given the expansion of the
format for the current time: the expansion is stored when it fits `max` bytes
with its NUL. Otherwise `strftime` returns 0 and leaves the buffer unspecified;
the model takes the empty string then (a date expands to 29 bytes, which fits
both date buffers of the program). -/
def strftime (max : Nat) (expansion : List Char) : List Char :=
  if expansion.length + 1 ≤ max then expansion else []

/-- The conversion `%ld` of a non-negative number. -/
def fmt_ld (n : Nat) : List Char :=
  (Nat.repr n).toList

/-- The conversion `%s` of a string that may be the null pointer; the C library
of the platform prints `(null)` for it. -/
def fmt_s : Option (List Char) → List Char
  | some s => s
  | none => "(null)".toList

/-! ## Data model -/

/-- The parsed request line (`HttpRequest`). -/
structure HttpRequest where
  /-- The field `char method[8]`. -/
  method : List Char
  /-- The field `char path[256]`. -/
  path : List Char
  /-- The field `char http_version[16]`. -/
  http_version : List Char
deriving DecidableEq

/-- The two fields of `struct stat` the program reads. -/
structure Stat where
  /-- The file mode with its permission bits. -/
  st_mode : Nat
  /-- The size of the file in bytes. -/
  st_size : Nat
deriving DecidableEq

/-- What the handler does to the outside. -/
inductive Effect
  /-- The call `setsockopt(connfd, SOL_SOCKET, SO_RCVTIMEO, ...)` with this `tv_sec`. -/
  | setsockopt (tv_sec : Int)
  /-- The call `recv(connfd, buf, BUFSIZE - 1, 0)`. -/
  | recv
  /-- The call `send(connfd, data, ...)`, whether or not it succeeds. -/
  | send (data : List Char)
  /-- The call `shutdown(connfd, 0)`. -/
  | shutdown
  /-- The call `close(connfd)`. -/
  | close
  /-- The statement `number_of_clients -= 1`. -/
  | decrement
  /-- The call `fclose(file)`. -/
  | fclose
deriving DecidableEq

/-- What the operating system answers during one pass of the handler loop. -/
structure Env where
  /-- The shared counter `number_of_clients` as read before the receive. -/
  number_of_clients : Int
  /-- The result of `recv`: `none` when it is negative, else the bytes received. -/
  recv : Option (List Char)
  /-- The expansion of `%a, %d %b %Y %H:%M:%S GMT` for the current time. -/
  now : List Char
  /-- The result of `stat` in `check_file`, by path: `none` when it fails. -/
  stat : List Char → Option Stat
  /-- The result of `fopen` in `transmit`, by path: `none` when it fails, else
  the non-empty blocks the successive calls of `fread` deliver. -/
  fopen : List Char → Option (List (List Char))
  /-- The result of `stat` in `transmit`, by path: `none` when it fails. -/
  stat_transmit : List Char → Option Stat
  /-- Whether the send of the headers in `transmit` succeeds. -/
  send_headers_ok : Bool
  /-- Whether the send of the block with this index in `transmit` succeeds. -/
  send_block_ok : Nat → Bool

/-- The locals of `run_thread` that live across passes of its loop. The array
`request` is represented by its bytes below `total_read`; the byte at
`total_read` is set to NUL before the array is read as a string. -/
structure Locals where
  /-- The bytes `request[0 .. total_read)`. -/
  request : List Char
  /-- The local `total_read`. -/
  total_read : Nat
  /-- The local `http_request`. -/
  http_request : HttpRequest
  /-- The local `file_stat`. -/
  file_stat : Stat
deriving DecidableEq

/-! ## The program -/

/-- The receive timeout in seconds (`tv.tv_sec`) that `run_thread` computes from
`number_of_clients`; `/` of C truncates towards zero. -/
def recv_timeout (number_of_clients : Int) : Int :=
  if number_of_clients = 0 then 10 else 10 * (Int.tdiv 1 number_of_clients)

/-- The function `close_client`. -/
def close_client : List Effect :=
  [Effect.decrement, Effect.shutdown, Effect.close]

/-- The function `create_headers`: the header block of the 500 response. -/
def create_headers (now : List Char) (length : Nat) : List Char :=
  let date_buffer := strftime 30 now
  snprintf BUFSIZE
    ("Date: ".toList ++ date_buffer ++ "\r\nContent-Type: ".toList ++ "text/html".toList
      ++ "\r\nContent-Length: ".toList ++ fmt_ld length
      ++ "\r\nConnection: close\r\n\r\n".toList)

/-- The function `add_date_header`: appends the Date header line to `response`. -/
def add_date_header (now response : List Char) : List Char :=
  let date_buffer := strftime 100 ("Date: ".toList ++ now ++ "\r\n".toList)
  strncat response date_buffer (BUFSIZE - response.length - 1)

/-- One conversion `%s` of `sscanf`: white space is skipped, then the longest
run of bytes that are not white space is read. The result is the token (`none`
at the end of the input) and the input left. -/
def scan_s (input : List Char) : Option (List Char) × List Char :=
  let s := input.dropWhile isspace
  if s = [] then (none, [])
  else (some (s.takeWhile (fun c => !isspace c)), s.dropWhile (fun c => !isspace c))

/-- The call `sscanf(request, "%s %s %s", method, path, http_version)`: the
number of fields assigned (`-1`, which is `EOF`, when the input ends before the
first one) and the request record, in which the fields not assigned keep their
old content. -/
def sscanf (input : List Char) (r : HttpRequest) : Int × HttpRequest :=
  match scan_s input with
  | (none, _) => (-1, r)
  | (some m, rest1) =>
    match scan_s rest1 with
    | (none, _) => (1, HttpRequest.mk m r.path r.http_version)
    | (some p, rest2) =>
      match scan_s rest2 with
      | (none, _) => (2, HttpRequest.mk m p r.http_version)
      | (some v, _) => (3, HttpRequest.mk m p v)

/-- The body of the 400 response. -/
def html_template_400 : List Char :=
  ("<html><head><title>400 Bad Request</title></head>"
    ++ "<body><h1>400 Bad Request</h1></body></html> \n").toList

/-- The body of the 404 response. -/
def html_template_404 : List Char :=
  ("<html><head><title>404 Not Found</title></head>"
    ++ "<body><h1>404 File Not Found</h1></body></html> \n").toList

/-- The body of the 403 response. -/
def html_template_403 : List Char :=
  ("<html><head><title>403 Forbidden</title></head>"
    ++ "<body><h1>403 Forbidden</h1></body></html> \n").toList

/-- The body of the 500 response. -/
def html_template_500 : List Char :=
  ("<html><head><title>500 Internal Server Error</title></head>"
    ++ "<body><h1>500 Internal Server Error</h1></body></html> \r\n\r\n").toList

/-- The three header lines and the blank line that follow the Date header in the
400, 404 and 403 responses. -/
def length_type_connection (body : List Char) : List Char :=
  "Content-Length: ".toList ++ fmt_ld body.length
    ++ "\r\nContent-Type: text/html\r\nConnection: close\r\n\r\n".toList

/-- The test of `parse_request` for a well-formed request. -/
def well_formed (num_parsed : Int) (request : List Char) (r : HttpRequest) : Bool :=
  num_parsed == 3 &&
    (r.method == "GET".toList &&
      (r.path.headD '\x00' == '/' &&
        (r.http_version == "HTTP/1.0".toList ||
          (r.http_version == "HTTP/1.1".toList &&
            (strstr request "\nHost: ".toList).isSome))))

/-- The statements with which `parse_request` and `check_file` build an error
response in a buffer of `BUFSIZE` bytes: `snprintf` of the status line,
`add_date_header`, `snprintf` of the three other headers with the blank line
behind the text so far, and `strncat` of the body. -/
def error_response (now : List Char) (status_line body : List Char) : List Char :=
  let buf := snprintf BUFSIZE status_line
  let buf := add_date_header now buf
  let buf := buf ++ snprintf (BUFSIZE - buf.length) (length_type_connection body)
  strncat buf body (BUFSIZE - buf.length - 1)

/-- The status line `parse_request` formats for its 400 response, with the two
line feeds the format string ends in. -/
def status_line_400 (r : HttpRequest) : List Char :=
  if r.http_version = "HTTP/1.0".toList ∨ r.http_version = "HTTP/1.1".toList then
    r.http_version ++ " 400 Bad Request\n\n".toList
  else
    "400 Bad Request\n\n".toList

/-- The 400 response that `parse_request` builds in `response`. -/
def response_400 (now : List Char) (r : HttpRequest) : List Char :=
  error_response now (status_line_400 r) html_template_400

/-- The function `parse_request` on the string `request`: its return value, the
request record as `sscanf` leaves it, and its effects. -/
def parse_request (now request : List Char) (http_request : HttpRequest) :
    Int × HttpRequest × List Effect :=
  let scanned := sscanf request http_request
  if well_formed scanned.1 request scanned.2 then (1, scanned.2, [])
  else (0, scanned.2, [Effect.send (response_400 now scanned.2)])

/-- The function `create_path`: the content of `filepath`. -/
def create_path (document_root : List Char) (http_request : HttpRequest) : List Char :=
  let filepath := document_root
  if http_request.path = "/".toList then filepath ++ "/index.html".toList
  else filepath ++ http_request.path

/-- The function `check_file`, given the answer of `stat` for `filepath`: the
content of `file_stat` afterwards (a failed `stat` leaves it as it was) and the
effects. -/
def check_file (now : List Char) (stat_result : Option Stat) (file_stat : Stat)
    (http_request : HttpRequest) : Stat × List Effect :=
  match stat_result with
  | none =>
    (file_stat,
      [Effect.send (error_response now
        (http_request.http_version ++ " 404 Not Found\r\n".toList) html_template_404)])
  | some st =>
    if st.st_mode &&& S_IROTH = 0 then
      (st,
        [Effect.send (error_response now
          (http_request.http_version ++ " 403 Forbidden\r\n".toList) html_template_403)])
    else
      (st, [Effect.send (snprintf BUFSIZE (http_request.http_version ++ " 200 OK\r\n".toList))])

/-- The function `get_file_type`; `none` is the null pointer it returns for an
extension that is not in its table. -/
def get_file_type (filename : List Char) : Option (List Char) :=
  match strrchr filename '.' with
  | none => some "unknown".toList
  | some 0 => some "unknown".toList
  | some (i + 1) =>
    let extension := filename.drop (i + 1 + 1)
    if extension = "txt".toList then some "text/plain".toList
    else if extension = "html".toList then some "text/html".toList
    else if extension = "jpg".toList ∨ extension = "jpeg".toList then some "image/jpeg".toList
    else if extension = "gif".toList then some "image/gif".toList
    else none

/-- The header block `transmit` sends before the content of the file. -/
def file_headers (now : List Char) (content_type : Option (List Char)) (st_size : Nat) :
    List Char :=
  let date_buffer := strftime 30 now
  snprintf BUFSIZE
    ("Date: ".toList ++ date_buffer ++ "\r\nContent-Type: ".toList ++ fmt_s content_type
      ++ "\r\nContent-Length: ".toList ++ fmt_ld st_size
      ++ "\r\nConnection: close\r\n\r\n".toList)

/-- The read-and-send loop of `transmit` over the blocks `fread` delivers, from
the block with index `k` on. -/
def send_blocks (send_block_ok : Nat → Bool) : Nat → List (List Char) → List Effect
  | _, [] => [Effect.fclose]
  | k, block :: blocks =>
    if send_block_ok k then Effect.send block :: send_blocks send_block_ok (k + 1) blocks
    else [Effect.send block, Effect.fclose, Effect.close]

/-- The function `transmit`. -/
def transmit (env : Env) (filepath http_version : List Char) : List Effect :=
  match env.fopen filepath with
  | none =>
    let response := snprintf BUFSIZE (http_version ++ " 500 Internal Server Error\r\n\r\n".toList)
    let headers := create_headers env.now html_template_500.length
    let response2 := headers ++ snprintf (BUFSIZE - headers.length) html_template_500
    [Effect.send response, Effect.send response2, Effect.close]
  | some blocks =>
    match env.stat_transmit filepath with
    | none => [Effect.fclose, Effect.close]
    | some file_info =>
      let content_type := get_file_type filepath
      let response := file_headers env.now content_type file_info.st_size
      if env.send_headers_ok then
        Effect.send response :: send_blocks env.send_block_ok 0 blocks
      else [Effect.send response, Effect.fclose, Effect.close]

/-- What `run_thread` does once a request is well formed: path resolution,
probe, transmission when `file_stat` has the bit `S_IROTH`, then close
(`none`) for `HTTP/1.0` or the reset of `total_read` and `request`. -/
def serve (document_root : List Char) (env : Env) (http_request : HttpRequest)
    (file_stat : Stat) : List Effect × Option Locals :=
  let filepath := create_path document_root http_request
  let probed := check_file env.now (env.stat filepath) file_stat http_request
  let transmitted :=
    if probed.1.st_mode &&& S_IROTH ≠ 0 then
      transmit env filepath http_request.http_version
    else []
  if http_request.http_version = "HTTP/1.0".toList then
    (probed.2 ++ transmitted ++ close_client, none)
  else
    (probed.2 ++ transmitted, some (Locals.mk [] 0 http_request probed.1))

/-- One pass of the `while (1)` loop of `run_thread`: its effects, and the locals
for the next pass or `none` when the function returns. -/
def loop_body (document_root : List Char) (env : Env) (l : Locals) :
    List Effect × Option Locals :=
  let start := [Effect.setsockopt (recv_timeout env.number_of_clients), Effect.recv]
  match env.recv with
  | none => (start ++ close_client, none)
  | some received =>
    let buf := received.take (BUFSIZE - 1)
    let num_read := buf.length
    if l.total_read + num_read ≥ BUFSIZE then (start ++ close_client, none)
    else
      let request := l.request.take l.total_read ++ buf
      let total_read := l.total_read + num_read
      if (strstr (cstr request) "\r\n\r\n".toList).isSome
          || (strstr (cstr request) "\n\n".toList).isSome then
        let parsed := parse_request env.now (cstr request) l.http_request
        if parsed.1 ≠ 0 then
          let served := serve document_root env parsed.2.1 l.file_stat
          (start ++ parsed.2.2 ++ served.1, served.2)
        else (start ++ parsed.2.2 ++ close_client, none)
      else (start, some (Locals.mk request total_read l.http_request l.file_stat))

/-- The `while (1)` loop of `run_thread` against the answers `envs`, one per
pass: the trace, and whether the function has returned (`false`: the answers
are used up and the handler is in its next receive). -/
def run_loop (document_root : List Char) : List Env → Locals → List Effect × Bool
  | [], _ => ([], false)
  | env :: envs, l =>
    match loop_body document_root env l with
    | (effects, none) => (effects, true)
    | (effects, some next) =>
      let later := run_loop document_root envs next
      (effects ++ later.1, later.2)

/-- The function `run_thread`. `detached` says whether `pthread_detach`
succeeded; `http_request` and `file_stat` are the contents of the two locals of
these names at entry, which the function does not initialise. -/
def run_thread (document_root : List Char) (detached : Bool) (http_request : HttpRequest)
    (file_stat : Stat) (envs : List Env) : List Effect × Bool :=
  if detached then run_loop document_root envs (Locals.mk [] 0 http_request file_stat)
  else ([Effect.shutdown, Effect.close], true)

/-! ## Notions of the specification -/

/-- The tokens of a text: its maximal runs of bytes that are not white space. -/
def tokens (s : List Char) : List (List Char) :=
  (s.splitOnP isspace).filter (fun t => !t.isEmpty)

/-- The first line of a text: the bytes before its first line break. -/
def first_line (s : List Char) : List Char :=
  s.takeWhile (fun c => c != '\n')

/-- The extension table of the specification: extension and MIME type. -/
def mime_table : List (List Char × List Char) :=
  [("txt".toList, "text/plain".toList), ("html".toList, "text/html".toList),
   ("jpg".toList, "image/jpeg".toList), ("jpeg".toList, "image/jpeg".toList),
   ("gif".toList, "image/gif".toList)]

/-- The string `run_thread` holds in `request` once it has copied the received
bytes behind the first `total_read` bytes and set the NUL after them. -/
def request_string (l : Locals) (received : List Char) : List Char :=
  cstr (l.request.take l.total_read ++ received.take (BUFSIZE - 1))

/-- How often an effect occurs in a trace. -/
def occurrences (e : Effect) (trace : List Effect) : Nat :=
  trace.count e

/-! ## Example inputs -/

/-- The answers of `stat` in a file system whose only file is `/www/a.txt`, with
mode 0644 and two bytes. -/
def www_stat (path : List Char) : Option Stat :=
  if path = "/www/a.txt".toList then some (Stat.mk 0o644 2) else none

/-- The answers of `fopen` and `fread` in that file system. -/
def www_fopen (path : List Char) : Option (List (List Char)) :=
  if path = "/www/a.txt".toList then some ["hi".toList] else none

/-- A pass in which `received` arrives, this connection is the only one, every
send succeeds and the file system is the one above. -/
def www_env (received : List Char) : Env :=
  Env.mk 1 (some received) "Sat, 31 Oct 2026 07:33:00 GMT".toList www_stat www_fopen www_stat
    true (fun _ => true)

/-- The same pass when `fopen` fails, for instance because the process has no
file descriptor left. -/
def www_env_fopen_fails (received : List Char) : Env :=
  Env.mk 1 (some received) "Sat, 31 Oct 2026 07:33:00 GMT".toList www_stat (fun _ => none)
    www_stat true (fun _ => true)

/-- A pass in which `recv` fails, as it does on a socket that is closed. -/
def www_env_recv_fails : Env :=
  Env.mk 1 none "Sat, 31 Oct 2026 07:33:00 GMT".toList www_stat www_fopen www_stat
    true (fun _ => true)

/-- Some content of the local `http_request` at entry of `run_thread`. -/
def entry_request : HttpRequest :=
  HttpRequest.mk [] [] []

/-- Some content of the local `file_stat` at entry of `run_thread`. -/
def entry_stat : Stat :=
  Stat.mk 0 0

/-! ## Lemmas on the C library functions -/

/-- Without an occurrence of `c`, `strrchr` returns the null pointer. -/
theorem strrchr_eq_none (s : List Char) (c : Char) (h : c ∉ s) : strrchr s c = none := by
  induction s with
  | nil => rfl
  | cons x xs ih =>
    have hx : x ≠ c := fun e => h (e ▸ List.mem_cons_self x xs)
    have hxs : c ∉ xs := fun m => h (List.mem_cons_of_mem x m)
    simp [strrchr, ih hxs, hx]

/-- The last occurrence of `c` is the one after which `c` does not occur. -/
theorem strrchr_append (stem ext : List Char) (c : Char) (h : c ∉ ext) :
    strrchr (stem ++ c :: ext) c = some stem.length := by
  induction stem with
  | nil => simp [strrchr, strrchr_eq_none ext c h]
  | cons x xs ih => simp [strrchr, ih]

/-- A name without `.` has the type `unknown`. -/
theorem get_file_type_no_dot (name : List Char) (h : '.' ∉ name) :
    get_file_type name = some "unknown".toList := by
  simp [get_file_type, strrchr_eq_none name '.' h]

/-- A name whose only `.` is its first byte has the type `unknown`. -/
theorem get_file_type_leading_dot (ext : List Char) (h : '.' ∉ ext) :
    get_file_type ('.' :: ext) = some "unknown".toList := by
  have := strrchr_append [] ext '.' h
  simp at this
  simp [get_file_type, this]

/-- For a name `stem.ext` with a non-empty stem, `get_file_type` looks `ext` up. -/
theorem get_file_type_ext (stem ext : List Char) (hs : stem ≠ []) (h : '.' ∉ ext) :
    get_file_type (stem ++ '.' :: ext) =
      if ext = "txt".toList then some "text/plain".toList
      else if ext = "html".toList then some "text/html".toList
      else if ext = "jpg".toList ∨ ext = "jpeg".toList then some "image/jpeg".toList
      else if ext = "gif".toList then some "image/gif".toList
      else none := by
  obtain ⟨x, xs, rfl⟩ := List.exists_cons_of_ne_nil hs
  have hr := strrchr_append (x :: xs) ext '.' h
  have hd : List.drop (xs.length + 1 + 1) (x :: xs ++ '.' :: ext) = ext := by
    have : x :: xs ++ '.' :: ext = (x :: xs ++ ['.']) ++ ext := by simp
    rw [this]
    exact List.drop_left' (by simp)
  simp only [List.length_cons] at hr
  simp only [get_file_type, hr, hd]

/-- The timeout is 0 from two connections on. -/
theorem recv_timeout_zero_iff (c : Int) (hc : 0 ≤ c) : recv_timeout c = 0 ↔ 2 ≤ c := by
  unfold recv_timeout
  rcases Int.lt_or_le c 2 with h | h
  · have h01 : c = 0 ∨ c = 1 := by omega
    rcases h01 with rfl | rfl <;> decide
  · have : Int.tdiv 1 c = 0 := Int.tdiv_eq_zero_of_lt (by decide) (by omega)
    have hne : c ≠ 0 := by omega
    simp [hne, this, h]

/-! ## The tokens of a text and the conversions of `sscanf` -/


/-- The function `strstr` finds `needle` exactly when it is a substring. -/
theorem strstr_isSome_iff (haystack needle : List Char) :
    (strstr haystack needle).isSome ↔ needle <:+: haystack := by
  induction haystack with
  | nil =>
    cases needle <;> simp [strstr, List.isPrefixOf]
  | cons c cs ih =>
    rw [List.infix_cons_iff, ← ih, strstr]
    by_cases h : needle.isPrefixOf (c :: cs) = true
    · simp [h, List.isPrefixOf_iff_prefix.mp h]
    · have : ¬ needle <+: c :: cs := fun hp => h (List.isPrefixOf_iff_prefix.mpr hp)
      simp [h, this]

/-- The empty text has no token. -/
theorem tokens_nil : tokens [] = [] := by
  simp [tokens]

/-- Splitting at white space distributes over a white-space byte. -/
theorem splitOnP_append_cons (a b : List Char) (sp : Char) (hsp : isspace sp = true) :
    (a ++ sp :: b).splitOnP isspace = a.splitOnP isspace ++ b.splitOnP isspace := by
  induction a with
  | nil => simp [hsp]
  | cons x xs ih =>
    rw [List.cons_append, List.splitOnP_cons, List.splitOnP_cons, ih]
    by_cases hx : isspace x = true
    · simp [hx]
    · simp only [hx, if_false]
      cases h : xs.splitOnP isspace with
      | nil => exact absurd h (List.splitOnP_ne_nil _ _)
      | cons y ys => rfl

/-- The tokens left and right of a white-space byte are the tokens of the text. -/
theorem tokens_append_cons (a b : List Char) (sp : Char) (hsp : isspace sp = true) :
    tokens (a ++ sp :: b) = tokens a ++ tokens b := by
  simp [tokens, splitOnP_append_cons a b sp hsp]

/-- Leading white space carries no token. -/
theorem tokens_cons_space (c : Char) (s : List Char) (hc : isspace c = true) :
    tokens (c :: s) = tokens s := by
  have := tokens_append_cons [] s c hc
  simpa [tokens_nil] using this

/-- A non-empty run without white space is one token. -/
theorem tokens_word (w : List Char) (hw : w ≠ []) (hns : ∀ x ∈ w, ¬ isspace x = true) :
    tokens w = [w] := by
  rw [tokens, List.splitOnP_eq_single isspace w hns]
  cases w with
  | nil => exact absurd rfl hw
  | cons x xs => simp

/-- Skipping leading white space leaves the tokens as they are. -/
theorem tokens_dropWhile_space (s : List Char) :
    tokens (s.dropWhile isspace) = tokens s := by
  induction s with
  | nil => rfl
  | cons x xs ih =>
    by_cases hx : isspace x = true
    · rw [List.dropWhile_cons_of_pos hx, ih, tokens_cons_space x xs hx]
    · rw [List.dropWhile_cons_of_neg hx]

/-- What a `%s` conversion leaves is empty or starts with white space. -/
theorem dropWhile_not_eq (s : List Char) :
    s.dropWhile (fun c => !isspace c) = []
      ∨ ∃ sp r, isspace sp = true ∧ s.dropWhile (fun c => !isspace c) = sp :: r := by
  induction s with
  | nil => left; rfl
  | cons x xs ih =>
    by_cases hx : isspace x = true
    · right
      exact ⟨x, xs, hx, by simp [List.dropWhile_cons, hx]⟩
    · simpa [List.dropWhile_cons, hx] using ih

/-- One `%s` conversion reads the first token and leaves the others. -/
theorem tokens_scan_s (s : List Char) :
    tokens s = match scan_s s with
      | (none, _) => []
      | (some w, rest) => w :: tokens rest := by
  rw [← tokens_dropWhile_space s]
  unfold scan_s
  cases hs1 : s.dropWhile isspace with
  | nil => simp [tokens_nil]
  | cons x xs =>
    have hx : ¬ isspace x = true := by
      have := List.head_dropWhile_not isspace s (by rw [hs1]; simp)
      simpa [hs1] using this
    simp only [List.cons_ne_nil, if_false]
    set s1 := x :: xs with hs1def
    have hsplit := List.takeWhile_append_dropWhile (fun c => !isspace c) s1
    have hw : s1.takeWhile (fun c => !isspace c) ≠ [] := by
      simp [hs1def, List.takeWhile_cons, hx]
    have hns : ∀ y ∈ s1.takeWhile (fun c => !isspace c), ¬ isspace y = true := by
      intro y hy
      have := List.mem_takeWhile_imp hy
      simpa using this
    rcases dropWhile_not_eq s1 with h | ⟨sp, r, hsp, h⟩
    · have e : s1 = s1.takeWhile (fun c => !isspace c) := by
        conv_lhs => rw [← hsplit, h, List.append_nil]
      rw [h, tokens_nil]
      conv_lhs => rw [e]
      exact tokens_word _ hw hns
    · conv_lhs => rw [← hsplit, h]
      rw [tokens_append_cons _ _ _ hsp, tokens_word _ hw hns, h, tokens_cons_space _ _ hsp]
      rfl


/-! ## The request line -/

/-- The call of `sscanf` assigns the first three tokens of its input. -/
theorem sscanf_tokens (s : List Char) (r : HttpRequest) :
    sscanf s r = match tokens s with
      | [] => (-1, r)
      | [m] => (1, HttpRequest.mk m r.path r.http_version)
      | [m, p] => (2, HttpRequest.mk m p r.http_version)
      | m :: p :: v :: _ => (3, HttpRequest.mk m p v) := by
  unfold sscanf
  rw [tokens_scan_s s]
  rcases scan_s s with ⟨_ | m, rest1⟩
  · rfl
  · simp only
    rw [tokens_scan_s rest1]
    rcases scan_s rest1 with ⟨_ | p, rest2⟩
    · rfl
    · simp only
      rw [tokens_scan_s rest2]
      rcases scan_s rest2 with ⟨_ | v, rest3⟩
      · rfl
      · rfl

/-- The tokens of a text start with the tokens of its first line. -/
theorem tokens_first_line (s : List Char) : ∃ more, tokens s = tokens (first_line s) ++ more := by
  have hsplit := List.takeWhile_append_dropWhile (fun c => c != '\n') s
  cases h : s.dropWhile (fun c => c != '\n') with
  | nil =>
    refine ⟨[], ?_⟩
    rw [h, List.append_nil] at hsplit
    rw [first_line, hsplit, List.append_nil]
  | cons x xs =>
    have hx : x = '\n' := by
      have := List.head_dropWhile_not (fun c => c != '\n') s (by rw [h]; simp)
      simpa [h] using this
    refine ⟨tokens xs, ?_⟩
    rw [h, hx] at hsplit
    conv_lhs => rw [← hsplit]
    exact tokens_append_cons _ _ _ (by decide)

/-- The test `path[0] == '/'` on a string. -/
theorem headD_eq_slash (p : List Char) :
    p.head?.getD '\x00' = '/' ↔ p.head? = some '/' := by
  cases p with
  | nil => simp
  | cons x xs => simp

/-- The return value of `parse_request` is its test of the scanned fields. -/
theorem parse_request_ret (now request : List Char) (old : HttpRequest) :
    (parse_request now request old).1
      = if well_formed (sscanf request old).1 request (sscanf request old).2 then 1 else 0 := by
  simp only [parse_request]
  split_ifs <;> rfl

/-- A request that holds fewer than three tokens in all, line breaks counting as
white space, is invalid: `parse_request` returns 0. -/
theorem parse_request_few_tokens (now request : List Char) (old : HttpRequest)
    (h : (tokens request).length < 3) :
    (parse_request now request old).1 = 0 := by
  have hs : (sscanf request old).1 ≠ 3 := by
    rw [sscanf_tokens]
    rcases ht : tokens request with _ | ⟨m, _ | ⟨p, _ | ⟨v, more⟩⟩⟩
    · simp
    · simp
    · simp
    · rw [ht, List.length_cons, List.length_cons, List.length_cons] at h; omega
  rw [parse_request_ret]
  have : well_formed (sscanf request old).1 request (sscanf request old).2 = false := by
    simp [well_formed, hs]
  simp [this]

/-! ## The error responses -/

/-- What `strftime` stores leaves room for the NUL. -/
theorem strftime_length (max : Nat) (expansion : List Char) (hmax : 0 < max) :
    (strftime max expansion).length ≤ max - 1 := by
  unfold strftime
  split_ifs with h
  · omega
  · simp

/-- A date text of at most 91 bytes fits `date_buffer` with `Date: ` and `\r\n`. -/
theorem strftime_date_line (now : List Char) (hnow : now.length ≤ 91) :
    strftime 100 ("Date: ".toList ++ now ++ "\r\n".toList)
      = "Date: ".toList ++ now ++ "\r\n".toList := by
  have hdate : ("Date: ".toList ++ now ++ "\r\n".toList).length = now.length + 8 := by
    simp [List.length_append]
  unfold strftime
  rw [if_pos (by rw [hdate]; omega)]

/-- An error response that fits the buffer is built without truncation. -/
theorem error_response_eq (now status_line body : List Char)
    (hfit : status_line.length + 99 + (length_type_connection body).length
      + body.length < BUFSIZE) :
    error_response now status_line body
      = status_line ++ strftime 100 ("Date: ".toList ++ now ++ "\r\n".toList)
          ++ length_type_connection body ++ body := by
  have hB : BUFSIZE = 1024 := rfl
  have hdate := strftime_length 100 ("Date: ".toList ++ now ++ "\r\n".toList) (by decide)
  have h1 : snprintf BUFSIZE status_line = status_line := by
    unfold snprintf
    exact List.take_of_length_le (by omega)
  have h2 : add_date_header now status_line
      = status_line ++ strftime 100 ("Date: ".toList ++ now ++ "\r\n".toList) := by
    simp only [add_date_header, strncat]
    rw [List.take_of_length_le (by omega)]
  have h3 : snprintf (BUFSIZE - (status_line
        ++ strftime 100 ("Date: ".toList ++ now ++ "\r\n".toList)).length)
      (length_type_connection body) = length_type_connection body := by
    unfold snprintf
    exact List.take_of_length_le (by rw [List.length_append]; omega)
  unfold error_response
  simp only [h1, h2, h3]
  unfold strncat
  rw [List.take_of_length_le
    (by rw [List.length_append, List.length_append]; omega)]

/-- An accepted request has one of the two versions. -/
theorem parse_request_version (now request : List Char) (old : HttpRequest)
    (h : (parse_request now request old).1 = 1) :
    (parse_request now request old).2.1.http_version = "HTTP/1.0".toList
      ∨ (parse_request now request old).2.1.http_version = "HTTP/1.1".toList := by
  rw [parse_request_ret] at h
  have hw : well_formed (sscanf request old).1 request (sscanf request old).2 = true := by
    by_contra hc
    rw [if_neg hc] at h
    exact absurd h (by decide)
  have e : (parse_request now request old).2.1 = (sscanf request old).2 := by
    simp only [parse_request]
    split_ifs
    all_goals rfl
  rw [e]
  simp only [well_formed, Bool.and_eq_true, Bool.or_eq_true, beq_iff_eq] at hw
  rcases hw.2.2.2 with h0 | h1
  · exact Or.inl h0
  · exact Or.inr h1.1

/-! ## The handler loop -/


/-- The loop of `transmit` does not receive. -/
theorem recv_not_mem_send_blocks (ok : Nat → Bool) (blocks : List (List Char)) (k : Nat) :
    Effect.recv ∉ send_blocks ok k blocks := by
  induction blocks generalizing k with
  | nil => simp [send_blocks]
  | cons b bs ih =>
    unfold send_blocks
    split_ifs
    · simp [ih]
    · simp

/-- The function `transmit` does not receive. -/
theorem recv_not_mem_transmit (env : Env) (filepath http_version : List Char) :
    Effect.recv ∉ transmit env filepath http_version := by
  unfold transmit
  cases env.fopen filepath with
  | none => simp
  | some blocks =>
    cases env.stat_transmit filepath with
    | none => simp
    | some info =>
      simp only
      split_ifs
      · simp [recv_not_mem_send_blocks]
      · simp

/-- The function `check_file` does not receive. -/
theorem recv_not_mem_check_file (now : List Char) (r : Option Stat) (file_stat : Stat)
    (q : HttpRequest) : Effect.recv ∉ (check_file now r file_stat q).2 := by
  unfold check_file
  cases r with
  | none => simp
  | some st =>
    simp only
    split_ifs <;> simp

/-- An accepted request is answered by nothing in `parse_request`. -/
theorem parse_request_effects (now request : List Char) (old : HttpRequest)
    (h : (parse_request now request old).1 = 1) :
    (parse_request now request old).2.2 = [] := by
  simp only [parse_request] at h ⊢
  split_ifs at h ⊢
  · rfl
  · simp at h

/-- A pass that completes an accepted request is the receive followed by `serve`. -/
theorem loop_body_parsed (root : List Char) (env : Env) (l : Locals) (received : List Char)
    (hrecv : env.recv = some received)
    (hroom : l.total_read + (received.take (BUFSIZE - 1)).length < BUFSIZE)
    (hterm : "\r\n\r\n".toList <:+: cstr (l.request.take l.total_read ++ received.take (BUFSIZE - 1))
      ∨ "\n\n".toList <:+: cstr (l.request.take l.total_read ++ received.take (BUFSIZE - 1)))
    (hparsed : (parse_request env.now
      (cstr (l.request.take l.total_read ++ received.take (BUFSIZE - 1))) l.http_request).1 = 1) :
    loop_body root env l
      = ([Effect.setsockopt (recv_timeout env.number_of_clients), Effect.recv]
          ++ (serve root env (parse_request env.now
              (cstr (l.request.take l.total_read ++ received.take (BUFSIZE - 1)))
              l.http_request).2.1 l.file_stat).1,
         (serve root env (parse_request env.now
              (cstr (l.request.take l.total_read ++ received.take (BUFSIZE - 1)))
              l.http_request).2.1 l.file_stat).2) := by
  have hfound : ((strstr (cstr (l.request.take l.total_read ++ received.take (BUFSIZE - 1)))
        "\r\n\r\n".toList).isSome
      || (strstr (cstr (l.request.take l.total_read ++ received.take (BUFSIZE - 1)))
        "\n\n".toList).isSome) = true := by
    rw [Bool.or_eq_true, strstr_isSome_iff, strstr_isSome_iff]
    exact hterm
  have hne : (parse_request env.now
      (cstr (l.request.take l.total_read ++ received.take (BUFSIZE - 1))) l.http_request).1 ≠ 0 := by
    rw [hparsed]; decide
  unfold loop_body
  rw [hrecv]
  simp only
  rw [if_neg (by omega), if_pos hfound, if_pos hne,
    parse_request_effects _ _ _ hparsed, List.append_nil]

/-- Every pass starts by setting the timeout and receiving. -/
theorem loop_body_start (root : List Char) (env : Env) (l : Locals) :
    (loop_body root env l).1.take 2
      = [Effect.setsockopt (recv_timeout env.number_of_clients), Effect.recv] := by
  unfold loop_body
  cases env.recv with
  | none => simp
  | some received =>
    simp only
    split_ifs <;> simp

/-- What a pass does once it has received the end of a request that
`parse_request` accepts as `q`: it probes the resolved path, runs `transmit`
when `file_stat` then has the bit `S_IROTH`, and for `HTTP/1.0` decrements the
counter, shuts the socket down, closes it and returns, while for any other
version it goes on with `request` cleared and `total_read = 0`. -/
theorem loop_body_served (root : List Char) (env : Env) (l : Locals)
    (received : List Char) (q : HttpRequest)
    (hrecv : env.recv = some received)
    (hroom : l.total_read + (received.take (BUFSIZE - 1)).length < BUFSIZE)
    (hterm : "\r\n\r\n".toList <:+: request_string l received
      ∨ "\n\n".toList <:+: request_string l received)
    (hparsed : parse_request env.now (request_string l received) l.http_request = (1, q, [])) :
    loop_body root env l
      = ([Effect.setsockopt (recv_timeout env.number_of_clients), Effect.recv]
          ++ (check_file env.now (env.stat (create_path root q)) l.file_stat q).2
          ++ (if (check_file env.now (env.stat (create_path root q)) l.file_stat q).1.st_mode
                &&& S_IROTH ≠ 0 then transmit env (create_path root q) q.http_version else [])
          ++ (if q.http_version = "HTTP/1.0".toList then
                [Effect.decrement, Effect.shutdown, Effect.close] else []),
         if q.http_version = "HTTP/1.0".toList then none
         else some (Locals.mk [] 0 q
           (check_file env.now (env.stat (create_path root q)) l.file_stat q).1)) := by
  have hret : (parse_request env.now (request_string l received) l.http_request).1 = 1 := by
    rw [hparsed]
  have hbody := loop_body_parsed root env l received hrecv hroom hterm hret
  have hq : (parse_request env.now
      (cstr (l.request.take l.total_read ++ received.take (BUFSIZE - 1))) l.http_request).2.1
      = q := congrArg (fun r => r.2.1) hparsed
  rw [hq] at hbody
  rw [hbody]
  by_cases hv : q.http_version = "HTTP/1.0".toList
  · simp only [serve, if_pos hv, close_client, List.append_assoc]
  · simp only [serve, if_neg hv, List.append_nil, List.append_assoc]

/-! ## Path resolution and the MIME table -/

/-- A resolved path starts with the document root and `/`. -/
theorem create_path_slash (r : List Char) (q : HttpRequest) (hp : q.path.head? = some '/') :
    (r ++ "/".toList) <+: create_path r q := by
  by_cases h : q.path = "/".toList
  · simp only [create_path, if_pos h]
    exact (List.prefix_append_right_inj r).mpr ⟨"index.html".toList, rfl⟩
  · simp only [create_path, if_neg h]
    cases hq : q.path with
    | nil => rw [hq] at hp; cases hp
    | cons x xs =>
      rw [hq] at hp
      cases hp
      exact (List.prefix_append_right_inj r).mpr ⟨xs, rfl⟩

/-- An extension of the table is resolved to its MIME type. -/
theorem mime_table_lookup (ext mime stem : List Char) (h : (ext, mime) ∈ mime_table)
    (hs : stem ≠ []) :
    get_file_type (stem ++ '.' :: ext) = some mime ∧ '/' ∉ ext ∧ mime.length ≤ 10 := by
  simp only [mime_table, List.mem_cons, Prod.mk.injEq, List.mem_nil_iff, or_false] at h
  rcases h with ⟨rfl, rfl⟩ | ⟨rfl, rfl⟩ | ⟨rfl, rfl⟩ | ⟨rfl, rfl⟩ | ⟨rfl, rfl⟩
  all_goals
    refine ⟨?_, by decide, by decide⟩
    rw [get_file_type_ext stem _ hs (by decide)]
    decide

/-- For a served path that ends in an extension of the table, the header block names the MIME type of the table. -/
theorem transmit_content_type (env : Env) (root : List Char) (q : HttpRequest)
    (ext mime : List Char) (blocks : List (List Char)) (info : Stat)
    (hp : q.path.head? = some '/')
    (hmime : (ext, mime) ∈ mime_table)
    (hext : ('.' :: ext) <:+ create_path root q)
    (hopen : env.fopen (create_path root q) = some blocks)
    (hstat : env.stat_transmit (create_path root q) = some info) :
    ∃ data rest, transmit env (create_path root q) q.http_version = Effect.send data :: rest ∧
      ("Date: ".toList ++ strftime 30 env.now ++ "\r\nContent-Type: ".toList ++ mime
        ++ "\r\n".toList) <+: data := by
  obtain ⟨stem, hstem⟩ := hext
  have hslash : '/' ∈ create_path root q := by
    obtain ⟨t, ht⟩ := create_path_slash root q hp
    rw [← ht]
    simp
  have hs : stem ≠ [] := by
    rintro rfl
    rw [← hstem] at hslash
    have := (mime_table_lookup ext mime ['x'] hmime (by simp)).2.1
    simp at hslash
    exact this hslash
  obtain ⟨hft, -, hlen⟩ := mime_table_lookup ext mime stem hmime hs
  rw [hstem] at hft
  have hd : (strftime 30 env.now).length ≤ 29 := by
    unfold strftime
    split_ifs with h
    · omega
    · simp
  refine ⟨file_headers env.now (some mime) info.st_size,
    if env.send_headers_ok then send_blocks env.send_block_ok 0 blocks
    else [Effect.fclose, Effect.close], ?_, ?_⟩
  · unfold transmit
    rw [hopen, hstat]
    simp only [hft]
    split_ifs <;> rfl
  · unfold file_headers snprintf
    rw [List.prefix_take_iff]
    constructor
    · refine ⟨"Content-Length: ".toList ++ fmt_ld info.st_size
        ++ "\r\nConnection: close\r\n\r\n".toList, ?_⟩
      simp [fmt_s]
    · have : BUFSIZE = 1024 := rfl
      simp only [List.length_append]
      have h1 : "Date: ".toList.length = 6 := rfl
      have h2 : "\r\nContent-Type: ".toList.length = 16 := rfl
      have h3 : "\r\n".toList.length = 2 := rfl
      omega


/-! ## The properties of the specification -/

set_option maxRecDepth 100000

/-- C1: for a request whose first line consists of exactly three tokens `m`,
`p`, `v`, each fitting its field of `HttpRequest`, `parse_request` returns 1
exactly when `m` is `GET`, `p` starts with `/`, and `v` is `HTTP/1.0` or `v` is
`HTTP/1.1` and the request contains `"\nHost: "`; it returns 0 exactly when
this fails. The capacities of the fields are a premise of the claim; the model
of `sscanf` stores a token whatever its length. -/
theorem parse_request_valid_iff (now request : List Char) (old : HttpRequest)
    (m p v : List Char) (h3 : tokens (first_line request) = [m, p, v])
    (_ : m.length < 8) (_ : p.length < 256) (_ : v.length < 16) :
    ((parse_request now request old).1 = 1 ↔
      (m = "GET".toList ∧ p.head? = some '/' ∧
        (v = "HTTP/1.0".toList ∨
          (v = "HTTP/1.1".toList ∧ "\nHost: ".toList <:+: request)))) ∧
    ((parse_request now request old).1 = 0 ↔
      ¬ (m = "GET".toList ∧ p.head? = some '/' ∧
        (v = "HTTP/1.0".toList ∨
          (v = "HTTP/1.1".toList ∧ "\nHost: ".toList <:+: request)))) := by
  obtain ⟨more, hmore⟩ := tokens_first_line request
  have hs : sscanf request old = (3, HttpRequest.mk m p v) := by
    rw [sscanf_tokens, hmore, h3]; rfl
  have key : well_formed 3 request (HttpRequest.mk m p v) = true ↔
      (m = "GET".toList ∧ p.head? = some '/' ∧
        (v = "HTTP/1.0".toList ∨
          (v = "HTTP/1.1".toList ∧ "\nHost: ".toList <:+: request))) := by
    simp [well_formed, headD_eq_slash, strstr_isSome_iff]
  rw [parse_request_ret, hs, ← key]
  constructor
  · split_ifs with h
    · simp [h]
    · simp [h]
  · split_ifs with h
    · simp [h]
    · simp [h]

/-- C1 at the request `GET /a.txt HTTP/1.1` with a `Host` header: its first line
has the three tokens, and the request is valid. -/
theorem parse_request_valid_iff_witness :
    tokens (first_line "GET /a.txt HTTP/1.1\r\nHost: x\r\n\r\n".toList)
        = ["GET".toList, "/a.txt".toList, "HTTP/1.1".toList] ∧
      (parse_request "Sat, 31 Oct 2026 07:33:00 GMT".toList
        "GET /a.txt HTTP/1.1\r\nHost: x\r\n\r\n".toList entry_request).1 = 1 :=
  ⟨by decide,
    (parse_request_valid_iff "Sat, 31 Oct 2026 07:33:00 GMT".toList
      "GET /a.txt HTTP/1.1\r\nHost: x\r\n\r\n".toList entry_request
      "GET".toList "/a.txt".toList "HTTP/1.1".toList (by decide) (by decide) (by decide)
      (by decide)).1.mpr (by decide)⟩

/-- C2 fails: `parse_request` accepts (returns 1 for) a request whose first line
has four tokens, and one whose first line has a single token while the two
missing tokens stand on the next line. -/
theorem parse_request_other_token_counts :
    ((tokens (first_line "GET / HTTP/1.0 extra\r\n\r\n".toList)).length = 4 ∧
      (parse_request "Sat, 31 Oct 2026 07:33:00 GMT".toList
        "GET / HTTP/1.0 extra\r\n\r\n".toList entry_request).1 = 1) ∧
    ((tokens (first_line "GET\n/ HTTP/1.0\n\n".toList)).length = 1 ∧
      (parse_request "Sat, 31 Oct 2026 07:33:00 GMT".toList
        "GET\n/ HTTP/1.0\n\n".toList entry_request).1 = 1) := by
  decide

/-- C3 fails on a keep-alive connection: after `/a.txt` was served, `file_stat`
still has the bit `S_IROTH`, so for the next request, whose `stat` fails, the
handler sends the 404 response and then runs `transmit`, which sends the two
parts of the 500 response and closes the socket; the handler then goes on to
its next receive. -/
theorem run_thread_transmits_after_404 :
    www_stat (create_path "/www".toList
      (HttpRequest.mk "GET".toList "/missing".toList "HTTP/1.1".toList)) = none ∧
    run_thread "/www".toList true entry_request entry_stat
        [www_env "GET /a.txt HTTP/1.1\r\nHost: x\r\n\r\n".toList,
         www_env "GET /missing HTTP/1.1\r\nHost: x\r\n\r\n".toList]
      = ([Effect.setsockopt 10, Effect.recv,
          Effect.send "HTTP/1.1 200 OK\r\n".toList,
          Effect.send ("Date: Sat, 31 Oct 2026 07:33:00 GMT\r\nContent-Type: text/plain\r\n"
            ++ "Content-Length: 2\r\nConnection: close\r\n\r\n").toList,
          Effect.send "hi".toList,
          Effect.fclose,
          Effect.setsockopt 10, Effect.recv,
          Effect.send (("HTTP/1.1 404 Not Found\r\nDate: Sat, 31 Oct 2026 07:33:00 GMT\r\n"
            ++ "Content-Length: 96\r\nContent-Type: text/html\r\n"
            ++ "Connection: close\r\n\r\n").toList ++ html_template_404),
          Effect.send "HTTP/1.1 500 Internal Server Error\r\n\r\n".toList,
          Effect.send (("Date: Sat, 31 Oct 2026 07:33:00 GMT\r\nContent-Type: text/html\r\n"
            ++ "Content-Length: 118\r\nConnection: close\r\n\r\n").toList ++ html_template_500),
          Effect.close],
         false) ∧
    transmit (www_env "GET /missing HTTP/1.1\r\nHost: x\r\n\r\n".toList) "/www/missing".toList
        "HTTP/1.1".toList
      = [Effect.send "HTTP/1.1 500 Internal Server Error\r\n\r\n".toList,
         Effect.send (("Date: Sat, 31 Oct 2026 07:33:00 GMT\r\nContent-Type: text/html\r\n"
            ++ "Content-Length: 118\r\nConnection: close\r\n\r\n").toList ++ html_template_500),
         Effect.close] := by
  decide

/-- C4 fails when `fopen` fails in `transmit`: for a valid `HTTP/1.0` request
for the readable file `/www/a.txt` the handler returns after it has closed the
socket twice, once in `transmit` and once in `close_client`, and decremented
the counter once. -/
theorem run_thread_closes_twice :
    run_thread "/www".toList true entry_request entry_stat
        [www_env_fopen_fails "GET /a.txt HTTP/1.0\r\n\r\n".toList]
      = ([Effect.setsockopt 10, Effect.recv,
          Effect.send "HTTP/1.0 200 OK\r\n".toList,
          Effect.send "HTTP/1.0 500 Internal Server Error\r\n\r\n".toList,
          Effect.send (("Date: Sat, 31 Oct 2026 07:33:00 GMT\r\nContent-Type: text/html\r\n"
            ++ "Content-Length: 118\r\nConnection: close\r\n\r\n").toList ++ html_template_500),
          Effect.close,
          Effect.decrement, Effect.shutdown, Effect.close],
         true) ∧
    occurrences Effect.close
      (run_thread "/www".toList true entry_request entry_stat
        [www_env_fopen_fails "GET /a.txt HTTP/1.0\r\n\r\n".toList]).1 = 2 ∧
    occurrences Effect.decrement
      (run_thread "/www".toList true entry_request entry_stat
        [www_env_fopen_fails "GET /a.txt HTTP/1.0\r\n\r\n".toList]).1 = 1 := by
  decide

/-- C5 as stated fails at two connections: the timeout `10 * (1 / 2)` is
already 0, although the count is between 1 and 9. -/
theorem recv_timeout_two_clients :
    (1 : Int) ≤ 2 ∧ (2 : Int) ≤ 9 ∧ recv_timeout 2 = 10 * Int.tdiv 1 2 ∧ recv_timeout 2 = 0 ∧
      ¬ (recv_timeout 2 = 0 ↔ (10 : Int) ≤ 2) := by
  decide

/-- C5 (amended): for a count `c ≥ 0` the timeout `run_thread` sets before a
receive is 10 when `c = 0` and `10 * (1 / c)` in the integer division of C when
`c > 0`; it is 0 exactly when `c ≥ 2`; and every pass of the loop starts by
setting this timeout and receiving. -/
theorem recv_timeout_spec (c : Int) (hc : 0 ≤ c) :
    (c = 0 → recv_timeout c = 10) ∧
    (0 < c → recv_timeout c = 10 * Int.tdiv 1 c) ∧
    (recv_timeout c = 0 ↔ 2 ≤ c) ∧
    (∀ (root : List Char) (env : Env) (l : Locals), env.number_of_clients = c →
      (loop_body root env l).1.take 2 = [Effect.setsockopt (recv_timeout c), Effect.recv]) := by
  refine ⟨?_, ?_, recv_timeout_zero_iff c hc, ?_⟩
  · intro h; simp [recv_timeout, h]
  · intro h
    have : c ≠ 0 := by omega
    simp [recv_timeout, this]
  · intro root env l h
    rw [← h]; exact loop_body_start root env l

/-- C5 (amended) at five connections, where the timeout is 0. -/
theorem recv_timeout_spec_witness :
    (0 : Int) ≤ 5 ∧ recv_timeout 5 = 10 * Int.tdiv 1 5 ∧ (recv_timeout 5 = 0 ↔ (2 : Int) ≤ 5) :=
  ⟨by decide, (recv_timeout_spec 5 (by decide)).2.1 (by decide),
    (recv_timeout_spec 5 (by decide)).2.2.1⟩

/-- C6 fails: for the rejected request `POST / HTTP/1.0` the response starts
with the status line and two line feeds, so its first blank line stands before
the Date header and not after the headers. -/
theorem parse_request_400_blank_line :
    parse_request "Sat, 31 Oct 2026 07:33:00 GMT".toList "POST / HTTP/1.0\r\n\r\n".toList
        entry_request
      = (0, HttpRequest.mk "POST".toList "/".toList "HTTP/1.0".toList,
          [Effect.send
            ("HTTP/1.0 400 Bad Request\n\n".toList
              ++ "Date: Sat, 31 Oct 2026 07:33:00 GMT\r\n".toList
              ++ ("Content-Length: 95\r\nContent-Type: text/html\r\n"
                  ++ "Connection: close\r\n\r\n").toList
              ++ html_template_400)]) ∧
    html_template_400.length = 95 := by
  decide

/-- C7 fails in its `HTTP/1.1` part: on a keep-alive connection on which
`/a.txt` was served, the accepted request for the missing `/missing` is answered
by the 404 response, then `transmit` runs on the stale `file_stat` and closes
the socket, and the pass still goes back to reading, with `request` cleared and
`total_read = 0`: the next `recv` is on the closed socket, fails, and the
handler closes the socket a second time in `close_client`. -/
theorem run_thread_loops_on_closed_socket :
    www_stat (create_path "/www".toList
      (HttpRequest.mk "GET".toList "/missing".toList "HTTP/1.1".toList)) = none ∧
    (loop_body "/www".toList (www_env "GET /a.txt HTTP/1.1\r\nHost: x\r\n\r\n".toList)
        (Locals.mk [] 0 entry_request entry_stat)).2
      = some (Locals.mk [] 0
          (HttpRequest.mk "GET".toList "/a.txt".toList "HTTP/1.1".toList) (Stat.mk 0o644 2)) ∧
    loop_body "/www".toList (www_env "GET /missing HTTP/1.1\r\nHost: x\r\n\r\n".toList)
        (Locals.mk [] 0
          (HttpRequest.mk "GET".toList "/a.txt".toList "HTTP/1.1".toList) (Stat.mk 0o644 2))
      = ([Effect.setsockopt 10, Effect.recv,
          Effect.send (("HTTP/1.1 404 Not Found\r\nDate: Sat, 31 Oct 2026 07:33:00 GMT\r\n"
            ++ "Content-Length: 96\r\nContent-Type: text/html\r\n"
            ++ "Connection: close\r\n\r\n").toList ++ html_template_404),
          Effect.send "HTTP/1.1 500 Internal Server Error\r\n\r\n".toList,
          Effect.send (("Date: Sat, 31 Oct 2026 07:33:00 GMT\r\nContent-Type: text/html\r\n"
            ++ "Content-Length: 118\r\nConnection: close\r\n\r\n").toList ++ html_template_500),
          Effect.close],
         some (Locals.mk [] 0
          (HttpRequest.mk "GET".toList "/missing".toList "HTTP/1.1".toList)
          (Stat.mk 0o644 2))) ∧
    run_thread "/www".toList true entry_request entry_stat
        [www_env "GET /a.txt HTTP/1.1\r\nHost: x\r\n\r\n".toList,
         www_env "GET /missing HTTP/1.1\r\nHost: x\r\n\r\n".toList,
         www_env_recv_fails]
      = ([Effect.setsockopt 10, Effect.recv,
          Effect.send "HTTP/1.1 200 OK\r\n".toList,
          Effect.send ("Date: Sat, 31 Oct 2026 07:33:00 GMT\r\nContent-Type: text/plain\r\n"
            ++ "Content-Length: 2\r\nConnection: close\r\n\r\n").toList,
          Effect.send "hi".toList,
          Effect.fclose,
          Effect.setsockopt 10, Effect.recv,
          Effect.send (("HTTP/1.1 404 Not Found\r\nDate: Sat, 31 Oct 2026 07:33:00 GMT\r\n"
            ++ "Content-Length: 96\r\nContent-Type: text/html\r\n"
            ++ "Connection: close\r\n\r\n").toList ++ html_template_404),
          Effect.send "HTTP/1.1 500 Internal Server Error\r\n\r\n".toList,
          Effect.send (("Date: Sat, 31 Oct 2026 07:33:00 GMT\r\nContent-Type: text/html\r\n"
            ++ "Content-Length: 118\r\nConnection: close\r\n\r\n").toList ++ html_template_500),
          Effect.close,
          Effect.setsockopt 10, Effect.recv,
          Effect.decrement, Effect.shutdown, Effect.close],
         true) := by
  decide

/-- C8: for a request that `parse_request` accepts and whose resolved path fails
`stat`, `check_file` writes one response: the status line `<version> 404 Not
Found`, the Date header line as `add_date_header` has it in `date_buffer`, the
Content-Length, Content-Type and Connection headers with the blank line, and the
whole 404 template, whose length, 96, is the Content-Length; nothing is cut off
by the buffer of `BUFSIZE` bytes. The Date header line is `Date: `, the date
text and `\r\n` whenever the date text has at most 91 bytes (the format
expands to 29). -/
theorem check_file_not_found (root : List Char) (env : Env) (now_parse request : List Char)
    (old : HttpRequest) (file_stat : Stat)
    (hparsed : (parse_request now_parse request old).1 = 1)
    (hstat : env.stat (create_path root (parse_request now_parse request old).2.1) = none) :
    check_file env.now (env.stat (create_path root (parse_request now_parse request old).2.1))
        file_stat (parse_request now_parse request old).2.1
      = (file_stat,
          [Effect.send
            ((parse_request now_parse request old).2.1.http_version
              ++ " 404 Not Found\r\n".toList
              ++ strftime 100 ("Date: ".toList ++ env.now ++ "\r\n".toList)
              ++ ("Content-Length: ".toList ++ fmt_ld html_template_404.length
                  ++ "\r\nContent-Type: text/html\r\nConnection: close\r\n\r\n".toList)
              ++ html_template_404)]) ∧
    (env.now.length ≤ 91 →
      strftime 100 ("Date: ".toList ++ env.now ++ "\r\n".toList)
        = "Date: ".toList ++ env.now ++ "\r\n".toList) ∧
    fmt_ld html_template_404.length = "96".toList := by
  have hv := parse_request_version now_parse request old hparsed
  have hl : ((parse_request now_parse request old).2.1.http_version
      ++ " 404 Not Found\r\n".toList).length = 24 := by
    rcases hv with hv | hv
    · rw [hv]; rfl
    · rw [hv]; rfl
  have hc : (length_type_connection html_template_404).length = 66 := by decide
  have hb : html_template_404.length = 96 := by decide
  refine ⟨?_, strftime_date_line env.now, by decide⟩
  rw [hstat]
  simp only [check_file]
  rw [error_response_eq env.now _ html_template_404
    (by rw [hl, hc, hb]; have : BUFSIZE = 1024 := rfl; omega)]
  rfl

/-- C8 at the request for `/missing` in a file system without it. -/
theorem check_file_not_found_witness :
    (parse_request "Sat, 31 Oct 2026 07:33:00 GMT".toList
      "GET /missing HTTP/1.1\r\nHost: x\r\n\r\n".toList entry_request).1 = 1 ∧
    www_stat (create_path "/www".toList
      (HttpRequest.mk "GET".toList "/missing".toList "HTTP/1.1".toList)) = none ∧
    (check_file "Sat, 31 Oct 2026 07:33:00 GMT".toList
        (www_stat "/www/missing".toList) entry_stat
        (HttpRequest.mk "GET".toList "/missing".toList "HTTP/1.1".toList)).2
      = [Effect.send
          ("HTTP/1.1".toList ++ " 404 Not Found\r\n".toList
            ++ "Date: Sat, 31 Oct 2026 07:33:00 GMT\r\n".toList
            ++ ("Content-Length: ".toList ++ "96".toList
                ++ "\r\nContent-Type: text/html\r\nConnection: close\r\n\r\n".toList)
            ++ html_template_404)] :=
  ⟨by decide, by decide,
    congrArg Prod.snd (check_file_not_found "/www".toList
      (www_env "GET /missing HTTP/1.1\r\nHost: x\r\n\r\n".toList)
      "Sat, 31 Oct 2026 07:33:00 GMT".toList
      "GET /missing HTTP/1.1\r\nHost: x\r\n\r\n".toList entry_request entry_stat
      (by decide) (by decide)).1⟩

/-- C9: `get_file_type` returns `unknown` for a name without `.` and for a name
whose only `.` is its first byte; for a name `stem.ext` with a non-empty stem
and no `.` in `ext` it returns the MIME type of the table for `txt`, `html`,
`jpg`, `jpeg` and `gif`, and the null pointer for every other `ext`; and for a
served file whose path ends in `.ext` with `ext` in the table, the first thing
`transmit` sends is the header block whose Content-Type line names the MIME
type of the table. -/
theorem get_file_type_spec :
    (∀ name : List Char, '.' ∉ name → get_file_type name = some "unknown".toList) ∧
    (∀ ext : List Char, '.' ∉ ext → get_file_type ('.' :: ext) = some "unknown".toList) ∧
    (∀ stem ext : List Char, stem ≠ [] → '.' ∉ ext →
      (ext = "txt".toList → get_file_type (stem ++ '.' :: ext) = some "text/plain".toList) ∧
      (ext = "html".toList → get_file_type (stem ++ '.' :: ext) = some "text/html".toList) ∧
      (ext = "jpg".toList ∨ ext = "jpeg".toList →
        get_file_type (stem ++ '.' :: ext) = some "image/jpeg".toList) ∧
      (ext = "gif".toList → get_file_type (stem ++ '.' :: ext) = some "image/gif".toList) ∧
      (ext ∉ ["txt".toList, "html".toList, "jpg".toList, "jpeg".toList, "gif".toList] →
        get_file_type (stem ++ '.' :: ext) = none)) ∧
    (∀ (env : Env) (root : List Char) (q : HttpRequest) (ext mime : List Char)
        (blocks : List (List Char)) (info : Stat),
      q.path.head? = some '/' →
      (ext, mime) ∈ mime_table →
      ('.' :: ext) <:+ create_path root q →
      env.fopen (create_path root q) = some blocks →
      env.stat_transmit (create_path root q) = some info →
      ∃ data rest,
        transmit env (create_path root q) q.http_version = Effect.send data :: rest ∧
        ("Date: ".toList ++ strftime 30 env.now ++ "\r\nContent-Type: ".toList ++ mime
          ++ "\r\n".toList) <+: data) := by
  refine ⟨get_file_type_no_dot, get_file_type_leading_dot, ?_, ?_⟩
  · intro stem ext hs hdot
    rw [get_file_type_ext stem ext hs hdot]
    refine ⟨?_, ?_, ?_, ?_, ?_⟩
    · rintro rfl; decide
    · rintro rfl; decide
    · rintro (rfl | rfl) <;> decide
    · rintro rfl; decide
    · intro h
      simp only [List.mem_cons, List.mem_nil_iff, or_false, not_or] at h
      rw [if_neg h.1, if_neg h.2.1, if_neg (not_or.mpr ⟨h.2.2.1, h.2.2.2.1⟩), if_neg h.2.2.2.2]
  · intro env root q ext mime blocks info hp hmime hext hopen hstat
    exact transmit_content_type env root q ext mime blocks info hp hmime hext hopen hstat

/-- C9 at the names `notes.txt.bak`, `photo.jpeg` and `.gif`, and at the served
file `/www/a.txt`. -/
theorem get_file_type_spec_witness :
    get_file_type "notes.txt.bak".toList = none ∧
    get_file_type "photo.jpeg".toList = some "image/jpeg".toList ∧
    get_file_type ".gif".toList = some "unknown".toList ∧
    ∃ data rest,
      transmit (www_env "GET /a.txt HTTP/1.0\r\n\r\n".toList)
          (create_path "/www".toList
            (HttpRequest.mk "GET".toList "/a.txt".toList "HTTP/1.0".toList))
          "HTTP/1.0".toList = Effect.send data :: rest ∧
      ("Date: ".toList ++ strftime 30 "Sat, 31 Oct 2026 07:33:00 GMT".toList
        ++ "\r\nContent-Type: ".toList ++ "text/plain".toList ++ "\r\n".toList) <+: data :=
  ⟨(get_file_type_spec.2.2.1 "notes.txt".toList "bak".toList (by decide) (by decide)).2.2.2.2
      (by decide),
    (get_file_type_spec.2.2.1 "photo".toList "jpeg".toList (by decide) (by decide)).2.2.1
      (Or.inr rfl),
    get_file_type_spec.2.1 "gif".toList (by decide),
    get_file_type_spec.2.2.2 (www_env "GET /a.txt HTTP/1.0\r\n\r\n".toList) "/www".toList
      (HttpRequest.mk "GET".toList "/a.txt".toList "HTTP/1.0".toList)
      "txt".toList "text/plain".toList ["hi".toList] (Stat.mk 0o644 2)
      (by decide) (by decide) (by decide) (by decide) (by decide)⟩

/-- C10: for a document root `r` and a request path that starts with `/`,
`create_path` yields `r` followed by `/index.html` when the path is `/`, and
else `r` followed by the path as it is; the result starts with `r`, indeed with
`r/`, and for a path other than `/` it ends with the path. -/
theorem create_path_spec (r : List Char) (q : HttpRequest) (hp : q.path.head? = some '/') :
    (q.path = "/".toList → create_path r q = r ++ "/index.html".toList) ∧
    (q.path ≠ "/".toList → create_path r q = r ++ q.path) ∧
    r <+: create_path r q ∧
    (r ++ "/".toList) <+: create_path r q ∧
    (q.path ≠ "/".toList → q.path <:+ create_path r q) := by
  by_cases h : q.path = "/".toList
  · have e : create_path r q = r ++ "/index.html".toList := by simp only [create_path, if_pos h]
    exact ⟨fun _ => e, fun h' => absurd h h', e ▸ List.prefix_append _ _,
      create_path_slash r q hp, fun h' => absurd h h'⟩
  · have e : create_path r q = r ++ q.path := by simp only [create_path, if_neg h]
    exact ⟨fun h' => absurd h' h, fun _ => e, e ▸ List.prefix_append _ _,
      create_path_slash r q hp, fun _ => e ▸ List.suffix_append _ _⟩

/-- C10 at the root `/www` and the path `/../x`, which is not normalised. -/
theorem create_path_spec_witness :
    (HttpRequest.mk "GET".toList "/../x".toList "HTTP/1.0".toList).path.head? = some '/' ∧
    create_path "/www".toList (HttpRequest.mk "GET".toList "/../x".toList "HTTP/1.0".toList)
      = "/www".toList ++ "/../x".toList :=
  ⟨by decide, (create_path_spec "/www".toList
    (HttpRequest.mk "GET".toList "/../x".toList "HTTP/1.0".toList) (by decide)).2.1 (by decide)⟩

end Webserver
